import Mathlib

/-!
Verification development for the safe-nav repository: a shallow embedding of
the route-proximity subsystem, the dashboard mode state machine and the
review store gateway, together with proofs of the stated properties.
JavaScript numbers are modelled as real numbers, JavaScript Infinity as the
value none of an optional real.
-/

noncomputable section

/-- A geographic point with latitude and longitude in degrees, as the plain
objects with lat and lng fields used throughout the frontend code. -/
structure Pt where
  lat : ℝ
  lng : ℝ

/-- A review record as held on the client after normalization by the server
(fields of the DTO produced by toReviewDTO). Timestamps are modelled as
integer milliseconds. -/
structure Review where
  id : String
  lat : ℝ
  lng : ℝ
  safetyRating : ℝ
  infrastructureRating : ℝ
  description : String
  address : String
  timestamp : ℤ

/-- Degrees to radians, from toRad in the frontend. -/
def toRad (x : ℝ) : ℝ := x * Real.pi / 180

/-- Meters per degree of latitude at reference latitude lat0 in radians,
the mPerDegLat series inside distPointToSegmentMeters. -/
def mPerDegLat (lat0 : ℝ) : ℝ :=
  111132.92 - 559.82 * Real.cos (2 * lat0) + 1.175 * Real.cos (4 * lat0)

/-- Meters per degree of longitude at reference latitude lat0 in radians,
the mPerDegLng series inside distPointToSegmentMeters. -/
def mPerDegLng (lat0 : ℝ) : ℝ :=
  111412.84 * Real.cos lat0 - 93.5 * Real.cos (3 * lat0)

/-- Planar core of distPointToSegmentMeters: distance from the projected
point (px, py) to the projected segment from the origin to (vx, vy), using
the clamped parametric projection exactly as written in the source. -/
def segDist2D (px py vx vy : ℝ) : ℝ :=
  let segLen2 := vx * vx + vy * vy
  if segLen2 = 0 then Real.sqrt (px * px + py * py)
  else
    let t := max 0 (min 1 ((px * vx + py * vy) / segLen2))
    let projx := vx * t
    let projy := vy * t
    let dx := px - projx
    let dy := py - projy
    Real.sqrt (dx * dx + dy * dy)

/-- Distance in meters from point p to the segment from v to w, translated
from distPointToSegmentMeters: project into the local plane anchored at the
midpoint latitude of the segment, then take the clamped planar distance. -/
def distPointToSegmentMeters (p v w : Pt) : ℝ :=
  let lat0 := toRad ((v.lat + w.lat) / 2)
  let mLat := mPerDegLat lat0
  let mLng := mPerDegLng lat0
  segDist2D ((p.lng - v.lng) * mLng) ((p.lat - v.lat) * mLat)
    ((w.lng - v.lng) * mLng) ((w.lat - v.lat) * mLat)

/-- Fixed buffer radius in meters around the route, the routeBufferMeters
field of the application (1 km). -/
def routeBufferMeters : ℝ := 1000

/-- Loop of minDistanceToPolylineMeters. The accumulator value none plays the
role of the JavaScript starting value Infinity, so the first computed segment
distance always replaces it; the loop returns as soon as the running minimum
is at most the buffer (the quick exit in the source). -/
def minDistLoop (p : Pt) (buffer : ℝ) : List Pt → Option ℝ → Option ℝ
  | v :: w :: rest, acc =>
      let d := distPointToSegmentMeters p v w
      let m := match acc with
        | none => d
        | some m0 => if d < m0 then d else m0
      if m ≤ buffer then some m else minDistLoop p buffer (w :: rest) (some m)
  | _, acc => acc

/-- Minimum distance in meters from p to the polyline, with early exit,
translated from minDistanceToPolylineMeters. The result none corresponds to
the JavaScript result Infinity, returned when the path has fewer than two
points. -/
def minDistanceToPolylineMeters (p : Pt) (path : List Pt) (buffer : ℝ) : Option ℝ :=
  minDistLoop p buffer path none

/-- Modelled from the spec: loop of a reference minimum-distance scan that is
identical to minDistLoop except that the early exit is removed, so every
segment of the polyline is visited. -/
def minDistFullLoop (p : Pt) : List Pt → Option ℝ → Option ℝ
  | v :: w :: rest, acc =>
      let d := distPointToSegmentMeters p v w
      let m := match acc with
        | none => d
        | some m0 => if d < m0 then d else m0
      minDistFullLoop p (w :: rest) (some m)
  | _, acc => acc

/-- Modelled from the spec: the non-early-exiting reference minimum distance
that scans every segment, used to state the early-exit refinement claim. -/
def minDistanceToPolylineFullScan (p : Pt) (path : List Pt) : Option ℝ :=
  minDistFullLoop p path none

/-- The JavaScript comparison dMeters <= buffer, where dMeters may be
Infinity (modelled as none): Infinity is never within the buffer. -/
def distWithinBuffer (m : Option ℝ) (buffer : ℝ) : Prop :=
  ∃ d, m = some d ∧ d ≤ buffer

/-- Boolean form of distWithinBuffer, used where the source filters lists. -/
def distWithinBufferB (m : Option ℝ) (buffer : ℝ) : Bool :=
  match m with
  | none => false
  | some d => decide (d ≤ buffer)

/-- The on-route subset of the reviews for a given polyline: the reviews kept
by the loop in countReviewsAlongRoute. A path with fewer than two points
keeps nothing, via the early return in the source. -/
def filterOnRoute (reviews : List Review) (path : List Pt) : List Review :=
  if path.length < 2 then []
  else reviews.filter fun r =>
    distWithinBufferB (minDistanceToPolylineMeters ⟨r.lat, r.lng⟩ path routeBufferMeters)
      routeBufferMeters

/-- Observable result of one invocation of countReviewsAlongRoute: the cached
on-route subset (routeFiltered), the highlight overlays present on the map
after the call (routeOverlays), and the returned count. -/
structure RouteScan where
  filtered : List Review
  overlays : List Pt
  count : ℕ

/-- Translation of countReviewsAlongRoute. The overlays argument holds the
halo overlays present before the call. On the short-path early return the
source returns before reaching the overlay-clearing lines, so the previous
overlays survive; otherwise the old overlays are cleared and one halo is
drawn at the position of each on-route review. -/
def countReviewsAlongRoute (reviews : List Review) (path : List Pt)
    (overlays : List Pt) : RouteScan :=
  if path.length < 2 then ⟨[], overlays, 0⟩
  else
    let f := filterOnRoute reviews path
    ⟨f, f.map fun r => ⟨r.lat, r.lng⟩, f.length⟩

/-- Text content of one dashboard tile as written by setStat: blank (the
empty string), a whole number rendered by String(n), or an average rendered
with one decimal by toFixed(1); the rendered value is kept symbolically. -/
inductive Stat where
  | blank
  | intText (n : ℕ)
  | fixed1 (x : ℝ)

/-- The four dashboard tiles totalReviews, avgSafety, avgInfra and
recentReviews. -/
structure Tiles where
  totalReviews : Stat
  avgSafety : Stat
  avgInfra : Stat
  recentReviews : Stat

/-- Seven days in milliseconds, the window used for the recent count. -/
def weekMillis : ℤ := 7 * 24 * 60 * 60 * 1000

/-- Number of reviews with a timestamp newer than one week before now,
from the weekAgo filter in the dashboard code. -/
def recentCount (reviews : List Review) (now : ℤ) : ℕ :=
  (reviews.filter fun r => decide (now - weekMillis < r.timestamp)).length

/-- Sum of safety ratings, the reduce over safetyRating in the source. -/
def sumSafety (reviews : List Review) : ℝ :=
  (reviews.map Review.safetyRating).sum

/-- Sum of infrastructure ratings, the reduce over infrastructureRating. -/
def sumInfra (reviews : List Review) : ℝ :=
  (reviews.map Review.infrastructureRating).sum

/-- Translation of updateDashboardOverall: every tile falls back to blank
when the review list is empty, via the JavaScript truthiness test on total. -/
def updateDashboardOverall (reviews : List Review) (now : ℤ) : Tiles :=
  let total := reviews.length
  ⟨if total = 0 then .blank else .intText total,
   if total = 0 then .blank else .fixed1 (sumSafety reviews / total),
   if total = 0 then .blank else .fixed1 (sumInfra reviews / total),
   if total = 0 then .blank else .intText (recentCount reviews now)⟩

/-- Translation of updateDashboardEmpty: all four tiles cleared. -/
def updateDashboardEmpty : Tiles :=
  ⟨.blank, .blank, .blank, .blank⟩

/-- Translation of updateDashboardRouteOnly: with an empty cached on-route
subset it falls through to updateDashboardEmpty, otherwise it renders the
aggregates of the cached subset. -/
def updateDashboardRouteOnly (routeFiltered : List Review) (now : ℤ) : Tiles :=
  if routeFiltered.length = 0 then updateDashboardEmpty
  else
    let total := routeFiltered.length
    ⟨.intText total,
     .fixed1 (sumSafety routeFiltered / total),
     .fixed1 (sumInfra routeFiltered / total),
     .intText (recentCount routeFiltered now)⟩

/-- The three dashboard presentation modes. -/
inductive Mode where
  | Overall
  | RouteOnly
  | Empty
deriving DecidableEq

/-- Which dashboard a call of updateDashboardRouteOnly ends up rendering:
Empty when the cached on-route subset is empty, RouteOnly otherwise. -/
def routeDashboardMode (routeFiltered : List Review) : Mode :=
  if routeFiltered.length = 0 then .Empty else .RouteOnly

/-- A JavaScript value as far as the backend type checks inspect it: a
number, a string, or anything else (undefined, null, objects and so on). -/
inductive JVal where
  | num (x : ℝ)
  | str (s : String)
  | undef

/-- The typeof check against the string number. -/
def JVal.isNumber : JVal → Bool
  | .num _ => true
  | _ => false

/-- The typeof check against the string string. -/
def JVal.isString : JVal → Bool
  | .str _ => true
  | _ => false

/-- Numeric content of a value known to be a number. -/
def JVal.getNum : JVal → ℝ
  | .num x => x
  | _ => 0

/-- String content of a value known to be a string. -/
def JVal.getStr : JVal → String
  | .str s => s
  | _ => ""

/-- Body of a POST /reviews request before validation; every field is an
arbitrary JavaScript value. -/
structure ReviewPayload where
  lat : JVal
  lng : JVal
  safetyRating : JVal
  infrastructureRating : JVal
  description : JVal
  address : JVal
  timestamp : JVal

/-- The validation applied by the POST /reviews handler: the four numeric
fields must be numbers and the description must be a string. The source
tests the negation as a disjunction of typeof mismatches and answers 400. -/
def payloadTyped (p : ReviewPayload) : Bool :=
  p.lat.isNumber && p.lng.isNumber && p.safetyRating.isNumber &&
    p.infrastructureRating.isNumber && p.description.isString

/-- The row inserted into the reviews table on a successful POST. -/
structure StoredReview where
  lat : ℝ
  lng : ℝ
  safetyRating : ℝ
  infrastructureRating : ℝ
  description : String

/-- Outcome of the POST /reviews handler on the happy database path: 400
with no insertion when a type check fails, otherwise the inserted row. -/
def postReview (p : ReviewPayload) : Except ℕ StoredReview :=
  if payloadTyped p then
    .ok ⟨p.lat.getNum, p.lng.getNum, p.safetyRating.getNum,
      p.infrastructureRating.getNum, p.description.getStr⟩
  else .error 400

/-- HTTP status answered by the POST /reviews handler. -/
def postReviewStatus (p : ReviewPayload) : ℕ :=
  match postReview p with
  | .ok _ => 201
  | .error e => e

/-- Outcome of a fetch call as seen by the frontend: an HTTP response with a
status and a parsed body, or a network failure (the promise rejecting). -/
inductive FetchResult (α : Type) where
  | response (status : ℕ) (body : α)
  | networkFailure

/-- The ok flag of a fetch response: status between 200 and 299. -/
def okStatus (status : ℕ) : Bool :=
  decide (200 ≤ status ∧ status ≤ 299)

/-- An event handled by the dashboard state machine: the completion of a
review list load, of a review creation, of a review deletion, a successful
route search, or an explicit route clear. -/
inductive Event where
  | reviewsLoaded (result : FetchResult (List Review))
  | reviewCreated (result : FetchResult Review)
  | reviewDeleted (id : String) (result : FetchResult Unit)
  | routeFound (path : List Pt)
  | routeCleared

/-- Kind of a user-visible toast produced by showNotification. -/
inductive NotifKind where
  | success
  | error
  | info
  | warning
deriving DecidableEq

/-- A user-visible toast with its kind and message. -/
structure Notif where
  kind : NotifKind
  message : String

/-- The mutable application fields relevant to the dashboard state machine:
the client review list, the route flag and polyline, the cached on-route
subset, the halo overlays, the mode (recording which dashboard update ran
last) and the rendered tiles. -/
structure AppState where
  reviews : List Review
  routeActive : Bool
  routePath : List Pt
  routeFiltered : List Review
  routeOverlays : List Pt
  mode : Mode
  tiles : Tiles

/-- State of a fresh SafetyMapApp instance before any event: no reviews, no
route, blank dashboard. -/
def initState : AppState :=
  ⟨[], false, [], [], [], .Overall, updateDashboardEmpty⟩

/-- The dispatch shared by loadReviews, saveReview and deleteReview: with an
active route of truthy length the on-route cache, the halos and the route
dashboard (or empty dashboard) are refreshed, otherwise the overall
dashboard is rendered. -/
def refreshDashboards (now : ℤ) (s : AppState) : AppState :=
  if s.routeActive = true ∧ s.routePath.length ≠ 0 then
    let scan := countReviewsAlongRoute s.reviews s.routePath s.routeOverlays
    { s with routeFiltered := scan.filtered, routeOverlays := scan.overlays,
             mode := routeDashboardMode scan.filtered,
             tiles := updateDashboardRouteOnly scan.filtered now }
  else
    { s with mode := .Overall, tiles := updateDashboardOverall s.reviews now }

/-- One event handled by the application, returning the new state and the
notifications shown. Mirrors loadReviews, saveReview, deleteReview, the
findRoute success callback and clearRoute; on a store failure each handler
throws before touching any state and the catch block only notifies. -/
def step (now : ℤ) (s : AppState) : Event → AppState × List Notif
  | .reviewsLoaded (.response st body) =>
      if okStatus st then
        (refreshDashboards now { s with reviews := body }, [])
      else
        ({ s with reviews := [], mode := .Overall,
                  tiles := updateDashboardOverall [] now },
         [⟨.error, "Failed to load reviews from server."⟩])
  | .reviewsLoaded .networkFailure =>
      ({ s with reviews := [], mode := .Overall,
                tiles := updateDashboardOverall [] now },
       [⟨.error, "Failed to load reviews from server."⟩])
  | .reviewCreated (.response st saved) =>
      if okStatus st then
        (refreshDashboards now { s with reviews := saved :: s.reviews },
         [⟨.success, "Review saved successfully!"⟩])
      else (s, [⟨.error, "Failed to save review."⟩])
  | .reviewCreated .networkFailure =>
      (s, [⟨.error, "Failed to save review."⟩])
  | .reviewDeleted id (.response st _) =>
      if st = 204 then
        (refreshDashboards now
          { s with reviews := s.reviews.filter fun r => r.id != id },
         [⟨.info, "Review deleted successfully"⟩])
      else (s, [⟨.error, "Failed to delete review."⟩])
  | .reviewDeleted _ .networkFailure =>
      (s, [⟨.error, "Failed to delete review."⟩])
  | .routeFound path =>
      let scan := countReviewsAlongRoute s.reviews path s.routeOverlays
      ({ s with routePath := path, routeActive := true,
                routeFiltered := scan.filtered, routeOverlays := scan.overlays,
                mode := routeDashboardMode scan.filtered,
                tiles := updateDashboardRouteOnly scan.filtered now }, [])
  | .routeCleared =>
      ({ s with routePath := [], routeActive := false, routeFiltered := [],
                routeOverlays := [], mode := .Overall,
                tiles := updateDashboardOverall s.reviews now }, [])

/-- Fold a list of events from the fresh state, keeping the state only. -/
def runEvents (now : ℤ) (es : List Event) : AppState :=
  es.foldl (fun s e => (step now s e).1) initState

/-- A route polyline is set exactly when the routeActive flag is on. -/
def routeIsSet (s : AppState) : Prop := s.routeActive = true

/-- The on-route subset determined by the current reviews and polyline. -/
def onRouteSubset (s : AppState) : List Review :=
  filterOnRoute s.reviews s.routePath

/-- The dashboard mode invariant: one of the three modes is active, RouteOnly
exactly when a route is set with a non-empty on-route subset, Empty exactly
when a route is set with an empty on-route subset, Overall exactly when no
route is set. Mode being a three-constructor type, the three iffs also force
the three conditions to be mutually exclusive. -/
def modeInvariant (s : AppState) : Prop :=
  (s.mode = .Overall ∨ s.mode = .RouteOnly ∨ s.mode = .Empty) ∧
  (s.mode = .RouteOnly ↔ routeIsSet s ∧ onRouteSubset s ≠ []) ∧
  (s.mode = .Empty ↔ routeIsSet s ∧ onRouteSubset s = []) ∧
  (s.mode = .Overall ↔ ¬ routeIsSet s)

/-- Strengthened induction invariant for reachable states: the polyline is
non-empty exactly when the route flag is on, and the mode invariant holds. -/
def reachInv (s : AppState) : Prop :=
  (s.routeActive = false → s.routePath = []) ∧
  (s.routeActive = true → s.routePath ≠ []) ∧
  modeInvariant s

/-- Side condition on an event: a route search success carries a polyline
with at least one point. -/
def eventRouteNondegenerate : Event → Prop
  | .routeFound path => path ≠ []
  | _ => True

/-- Side condition on an event: a review list load succeeds. -/
def eventLoadSucceeds : Event → Prop
  | .reviewsLoaded (.response st _) => okStatus st = true
  | .reviewsLoaded .networkFailure => False
  | _ => True

/-- Straight-line Euclidean distance in meters from p to q in the local
plane anchored at the latitude of q, the spec notion of straight-line
distance from P to V for a degenerate segment. -/
def planarDistanceMeters (p q : Pt) : ℝ :=
  let lat0 := toRad q.lat
  let ex := (p.lng - q.lng) * mPerDegLng lat0
  let ey := (p.lat - q.lat) * mPerDegLat lat0
  Real.sqrt (ex * ex + ey * ey)

/-- The point p lies on the segment from v to w under the local planar
projection anchored at the midpoint latitude of the segment: its projected
offset from v is a convex combination along the projected segment vector. -/
def onSegmentProjected (p v w : Pt) : Prop :=
  let lat0 := toRad ((v.lat + w.lat) / 2)
  let mLat := mPerDegLat lat0
  let mLng := mPerDegLng lat0
  ∃ t, 0 ≤ t ∧ t ≤ 1 ∧
    (p.lng - v.lng) * mLng = t * ((w.lng - v.lng) * mLng) ∧
    (p.lat - v.lat) * mLat = t * ((w.lat - v.lat) * mLat)

/-- Within-buffer classification of a present distance value. -/
lemma distWithinBuffer_some (d b : ℝ) : distWithinBuffer (some d) b ↔ d ≤ b := by
  simp [distWithinBuffer]

/-- An absent distance (Infinity) is never within the buffer. -/
lemma distWithinBuffer_none (b : ℝ) : ¬ distWithinBuffer none b := by
  simp [distWithinBuffer]

/-- The full scan only ever lowers a present accumulator. -/
lemma minDistFullLoop_exists_le (p : Pt) :
    ∀ (path : List Pt) (m : ℝ),
      ∃ m2, minDistFullLoop p path (some m) = some m2 ∧ m2 ≤ m := by
  intro path
  induction path with
  | nil => intro m; exact ⟨m, rfl, le_rfl⟩
  | cons v tl ih =>
      intro m
      cases tl with
      | nil => exact ⟨m, rfl, le_rfl⟩
      | cons w rest =>
          have hstep : minDistFullLoop p (v :: w :: rest) (some m) =
              minDistFullLoop p (w :: rest)
                (some (if distPointToSegmentMeters p v w < m
                  then distPointToSegmentMeters p v w else m)) := by
            simp [minDistFullLoop]
          obtain ⟨m2, h2, hle⟩ :=
            ih (if distPointToSegmentMeters p v w < m
              then distPointToSegmentMeters p v w else m)
          refine ⟨m2, hstep ▸ h2, le_trans hle ?_⟩
          split
          · exact le_of_lt (by assumption)
          · exact le_rfl

/-- Core of the early-exit equivalence: from any accumulator, the early-exit
loop and the full scan classify against the buffer identically. -/
lemma minDistLoop_classification (p : Pt) (b : ℝ) :
    ∀ (path : List Pt) (acc : Option ℝ),
      distWithinBuffer (minDistLoop p b path acc) b ↔
        distWithinBuffer (minDistFullLoop p path acc) b := by
  intro path
  induction path with
  | nil => intro acc; simp [minDistLoop, minDistFullLoop]
  | cons v tl ih =>
      intro acc
      cases tl with
      | nil => simp [minDistLoop, minDistFullLoop]
      | cons w rest =>
          simp only [minDistLoop, minDistFullLoop]
          set d := distPointToSegmentMeters p v w with hd
          set m := (match acc with
            | none => d
            | some m0 => if d < m0 then d else m0 : ℝ) with hm
          by_cases hmb : m ≤ b
          · rw [if_pos hmb]
            obtain ⟨m2, h2, hle⟩ := minDistFullLoop_exists_le p (w :: rest) m
            rw [h2, distWithinBuffer_some, distWithinBuffer_some]
            exact iff_of_true hmb (le_trans hle hmb)
          · rw [if_neg hmb]
            exact ih (some m)

/-- Claim C1: for every route polyline, review point and buffer, the
on-route classification computed by the early-exiting minimum-distance
routine agrees with the classification computed by the non-early-exiting
reference scan over every segment. -/
theorem c1_early_exit_classification (p : Pt) (path : List Pt) (buffer : ℝ) :
    distWithinBuffer (minDistanceToPolylineMeters p path buffer) buffer ↔
      distWithinBuffer (minDistanceToPolylineFullScan p path) buffer := by
  unfold minDistanceToPolylineMeters minDistanceToPolylineFullScan
  exact minDistLoop_classification p buffer path none

/-- Claim C3: when the two segment endpoints coincide, the point-to-segment
distance is the straight-line distance from the point to that endpoint in
the projected plane (the midpoint latitude then being the endpoint
latitude). -/
theorem c3_degenerate_segment (p v : Pt) :
    distPointToSegmentMeters p v v = planarDistanceMeters p v := by
  unfold distPointToSegmentMeters planarDistanceMeters segDist2D
  have h2 : (v.lat + v.lat) / 2 = v.lat := by ring
  rw [h2]
  simp

/-- The planar segment distance is a square root, hence non-negative. -/
lemma segDist2D_nonneg (px py vx vy : ℝ) : 0 ≤ segDist2D px py vx vy := by
  unfold segDist2D
  dsimp only
  split
  · exact Real.sqrt_nonneg _
  · exact Real.sqrt_nonneg _

/-- The planar segment distance vanishes exactly when the projected point is
a convex combination along the projected segment vector. -/
lemma segDist2D_eq_zero_iff (px py vx vy : ℝ) :
    segDist2D px py vx vy = 0 ↔
      ∃ t, 0 ≤ t ∧ t ≤ 1 ∧ px = t * vx ∧ py = t * vy := by
  unfold segDist2D
  dsimp only
  by_cases h : vx * vx + vy * vy = 0
  · rw [if_pos h]
    have hvx : vx = 0 := by nlinarith [mul_self_nonneg vx, mul_self_nonneg vy]
    have hvy : vy = 0 := by nlinarith [mul_self_nonneg vx, mul_self_nonneg vy]
    rw [Real.sqrt_eq_zero (by nlinarith [mul_self_nonneg px, mul_self_nonneg py])]
    constructor
    · intro hz
      have hpx : px = 0 := by nlinarith [mul_self_nonneg px, mul_self_nonneg py]
      have hpy : py = 0 := by nlinarith [mul_self_nonneg px, mul_self_nonneg py]
      exact ⟨0, le_rfl, zero_le_one, by rw [hpx]; ring, by rw [hpy]; ring⟩
    · rintro ⟨t, _, _, hx, hy⟩
      rw [hx, hy, hvx, hvy]; ring
  · rw [if_neg h]
    set t0 := max 0 (min 1 ((px * vx + py * vy) / (vx * vx + vy * vy))) with ht0
    rw [Real.sqrt_eq_zero
      (by nlinarith [mul_self_nonneg (px - vx * t0), mul_self_nonneg (py - vy * t0)])]
    constructor
    · intro hz
      have hdx : px - vx * t0 = 0 := by
        nlinarith [mul_self_nonneg (px - vx * t0), mul_self_nonneg (py - vy * t0)]
      have hdy : py - vy * t0 = 0 := by
        nlinarith [mul_self_nonneg (px - vx * t0), mul_self_nonneg (py - vy * t0)]
      refine ⟨t0, le_max_left 0 _, max_le (zero_le_one) (min_le_left 1 _), ?_, ?_⟩
      · linear_combination hdx
      · linear_combination hdy
    · rintro ⟨t, h0, h1, hx, hy⟩
      have hts : (px * vx + py * vy) / (vx * vx + vy * vy) = t := by
        rw [hx, hy]
        field_simp
        ring
      have htt : t0 = t := by
        rw [ht0, hts, min_eq_right h1, max_eq_right h0]
      rw [htt, hx, hy]; ring

/-- Claim C4: the point-to-segment distance is non-negative, and vanishes
exactly when the point lies on the segment under the local planar projection
anchored at the midpoint latitude of the segment. -/
theorem c4_nonneg_and_zero_iff (p v w : Pt) :
    0 ≤ distPointToSegmentMeters p v w ∧
      (distPointToSegmentMeters p v w = 0 ↔ onSegmentProjected p v w) := by
  constructor
  · exact segDist2D_nonneg _ _ _ _
  · exact segDist2D_eq_zero_iff _ _ _ _

/-- Claim C5: when the active polyline has fewer than two points, the
proximity filter classifies no review as on-route: the filtered set is empty
and the reported count is zero (the defined edge case, not an error). -/
theorem c5_short_polyline (reviews : List Review) (path : List Pt)
    (overlays : List Pt) (h : path.length < 2) :
    filterOnRoute reviews path = [] ∧
      (countReviewsAlongRoute reviews path overlays).filtered = [] ∧
      (countReviewsAlongRoute reviews path overlays).count = 0 := by
  unfold filterOnRoute countReviewsAlongRoute
  rw [if_pos h, if_pos h]
  exact ⟨rfl, rfl, rfl⟩

/-- Witness for claim C5 at a one-point polyline and one review. -/
theorem c5_short_polyline_witness :
    ([(⟨17.3850, 78.4867⟩ : Pt)] : List Pt).length < 2 ∧
      filterOnRoute [⟨"1", 17.4, 78.5, 4, 3, "ok", "a", 0⟩]
        [⟨17.3850, 78.4867⟩] = [] ∧
      (countReviewsAlongRoute [⟨"1", 17.4, 78.5, 4, 3, "ok", "a", 0⟩]
        [⟨17.3850, 78.4867⟩] []).filtered = [] ∧
      (countReviewsAlongRoute [⟨"1", 17.4, 78.5, 4, 3, "ok", "a", 0⟩]
        [⟨17.3850, 78.4867⟩] []).count = 0 :=
  ⟨by norm_num,
   c5_short_polyline [⟨"1", 17.4, 78.5, 4, 3, "ok", "a", 0⟩]
     [⟨17.3850, 78.4867⟩] [] (by norm_num)⟩

/-- Claim C7: with an empty active subset, all four aggregates are rendered
blank, by the overall dashboard on an empty review set and by the empty
dashboard (also reached through the route dashboard on an empty on-route
subset); blank is distinct from any rendered number, in particular from the
rendered zero. -/
theorem c7_blank_aggregates (now : ℤ) :
    updateDashboardOverall [] now = ⟨.blank, .blank, .blank, .blank⟩ ∧
      updateDashboardRouteOnly [] now = ⟨.blank, .blank, .blank, .blank⟩ ∧
      updateDashboardEmpty = ⟨.blank, .blank, .blank, .blank⟩ ∧
      (∀ n : ℕ, Stat.intText n ≠ Stat.blank) := by
  refine ⟨rfl, rfl, rfl, ?_⟩
  intro n h
  exact Stat.noConfusion h

/-- Claim C8, the divergence: invoking countReviewsAlongRoute with a
polyline of fewer than two points returns before the overlay-clearing lines,
so a highlight overlay left by a previous invocation persists even though
the current on-route subset, and hence its set of highlight positions, is
empty. -/
theorem c8_stale_overlays :
    (countReviewsAlongRoute [] [⟨0, 0⟩] [⟨0.0005, 0.005⟩]).overlays =
        [⟨0.0005, 0.005⟩] ∧
      (countReviewsAlongRoute [] [⟨0, 0⟩] [⟨0.0005, 0.005⟩]).filtered = [] ∧
      ((countReviewsAlongRoute [] [⟨0, 0⟩] [⟨0.0005, 0.005⟩]).filtered.map
        fun r => (⟨r.lat, r.lng⟩ : Pt)) = [] :=
  ⟨rfl, rfl, rfl⟩

/-- Counterexample to claim C9 as stated: a submission whose description is
the empty string but whose numeric fields are well-typed is answered 201 and
stored, not rejected with 400. -/
theorem c9_counterexample :
    (⟨.num 17.4, .num 78.5, .num 4, .num 3, .str "", .undef, .undef⟩ :
        ReviewPayload).description = .str "" ∧
      postReviewStatus
        ⟨.num 17.4, .num 78.5, .num 4, .num 3, .str "", .undef, .undef⟩ = 201 ∧
      postReviewStatus
        ⟨.num 17.4, .num 78.5, .num 4, .num 3, .str "", .undef, .undef⟩ ≠ 400 :=
  ⟨rfl, rfl, by decide⟩

/-- Claim C9 as amended: the gateway validates only types, answering 400
exactly when one of the four numeric fields is not a number or the
description is not a string; a well-typed submission with an empty-string
description is accepted and stored with the empty description. -/
theorem c9_type_only_validation (p : ReviewPayload) :
    (postReviewStatus p = 400 ↔ ¬ (payloadTyped p = true)) ∧
      (payloadTyped p = true → p.description = .str "" →
        ∃ rec, postReview p = .ok rec ∧ rec.description = "") := by
  constructor
  · unfold postReviewStatus postReview
    by_cases h : payloadTyped p = true
    · rw [if_pos h]
      simp [h]
    · rw [if_neg h]
      simp [h]
  · intro ht hdesc
    refine ⟨_, by unfold postReview; rw [if_pos ht], ?_⟩
    rw [hdesc]
    rfl

/-- Witness for claim C9 as amended, at the empty-description payload. -/
theorem c9_type_only_validation_witness :
    (postReviewStatus
        ⟨.num 17.4, .num 78.5, .num 4, .num 3, .str "", .undef, .undef⟩ = 400 ↔
      ¬ (payloadTyped
        ⟨.num 17.4, .num 78.5, .num 4, .num 3, .str "", .undef, .undef⟩ = true)) ∧
      ∃ rec, postReview
          ⟨.num 17.4, .num 78.5, .num 4, .num 3, .str "", .undef, .undef⟩ =
            .ok rec ∧ rec.description = "" :=
  ⟨(c9_type_only_validation _).1, (c9_type_only_validation _).2 rfl rfl⟩

/-- Claim C10: when the store call fails during review creation or deletion
(non-ok response or network error), the handler throws before touching any
client state, so the whole application state, including the review list, the
on-route cache and the dashboard, is unchanged and only an error
notification is produced. -/
theorem c10_store_failure_atomic (now : ℤ) (s : AppState) (saved : Review)
    (id : String) (st st2 : ℕ) (h1 : okStatus st = false) (h2 : st2 ≠ 204) :
    step now s (.reviewCreated (.response st saved)) =
        (s, [⟨.error, "Failed to save review."⟩]) ∧
      step now s (.reviewCreated .networkFailure) =
        (s, [⟨.error, "Failed to save review."⟩]) ∧
      step now s (.reviewDeleted id (.response st2 ())) =
        (s, [⟨.error, "Failed to delete review."⟩]) ∧
      step now s (.reviewDeleted id .networkFailure) =
        (s, [⟨.error, "Failed to delete review."⟩]) := by
  refine ⟨?_, rfl, ?_, rfl⟩
  · simp only [step, h1, Bool.false_eq_true, if_false]
  · simp only [step, if_neg h2]

/-- Witness for claim C10 at a 500 response to a save and a 404 response to
a delete, from the fresh application state. -/
theorem c10_store_failure_atomic_witness :
    okStatus 500 = false ∧ (404 : ℕ) ≠ 204 ∧
      step 0 initState
          (.reviewCreated (.response 500 ⟨"1", 17.4, 78.5, 4, 3, "ok", "a", 0⟩)) =
        (initState, [⟨.error, "Failed to save review."⟩]) ∧
      step 0 initState (.reviewCreated .networkFailure) =
        (initState, [⟨.error, "Failed to save review."⟩]) ∧
      step 0 initState (.reviewDeleted "1" (.response 404 ())) =
        (initState, [⟨.error, "Failed to delete review."⟩]) ∧
      step 0 initState (.reviewDeleted "1" .networkFailure) =
        (initState, [⟨.error, "Failed to delete review."⟩]) :=
  ⟨by decide, by decide,
   c10_store_failure_atomic 0 initState ⟨"1", 17.4, 78.5, 4, 3, "ok", "a", 0⟩
     "1" 500 404 (by decide) (by decide)⟩

/-- The cached subset produced by countReviewsAlongRoute is filterOnRoute. -/
lemma countReviewsAlongRoute_filtered (reviews : List Review) (path : List Pt)
    (overlays : List Pt) :
    (countReviewsAlongRoute reviews path overlays).filtered =
      filterOnRoute reviews path := by
  unfold countReviewsAlongRoute filterOnRoute
  by_cases h : path.length < 2
  · rw [if_pos h, if_pos h]
  · rw [if_neg h, if_neg h]

/-- The mode invariant holds whenever the overall dashboard was rendered
with the route flag off. -/
lemma modeInvariant_overall (s : AppState) (hmode : s.mode = .Overall)
    (hact : s.routeActive = false) : modeInvariant s := by
  unfold modeInvariant routeIsSet
  refine ⟨Or.inl hmode, ?_, ?_, ?_⟩ <;> simp [hmode, hact]

/-- The mode invariant holds whenever the route dashboard dispatch was
rendered from the semantic on-route subset with the route flag on. -/
lemma modeInvariant_route (s : AppState) (hact : s.routeActive = true)
    (hmode : s.mode = routeDashboardMode (onRouteSubset s)) : modeInvariant s := by
  unfold modeInvariant routeIsSet
  unfold routeDashboardMode at hmode
  by_cases hf : (onRouteSubset s).length = 0
  · rw [if_pos hf] at hmode
    have hfe : onRouteSubset s = [] := List.length_eq_zero.mp hf
    refine ⟨Or.inr (Or.inr hmode), ?_, ?_, ?_⟩ <;> simp [hmode, hact, hfe]
  · rw [if_neg hf] at hmode
    have hfe : onRouteSubset s ≠ [] := by
      intro h0
      exact hf (by rw [h0]; rfl)
    refine ⟨Or.inr (Or.inl hmode), ?_, ?_, ?_⟩ <;> simp [hmode, hact, hfe]

/-- The fresh application state satisfies the reachability invariant. -/
lemma reachInv_initState : reachInv initState := by
  refine ⟨fun _ => rfl, fun h => by exact absurd h (by decide), ?_⟩
  exact modeInvariant_overall initState rfl rfl

/-- The shared dashboard dispatch preserves the reachability invariant. -/
lemma reachInv_refreshDashboards (now : ℤ) (s : AppState)
    (h1 : s.routeActive = false → s.routePath = [])
    (h2 : s.routeActive = true → s.routePath ≠ []) :
    reachInv (refreshDashboards now s) := by
  unfold refreshDashboards
  by_cases hc : s.routeActive = true ∧ s.routePath.length ≠ 0
  · rw [if_pos hc]
    refine ⟨fun h => h1 h, fun h => h2 h, ?_⟩
    apply modeInvariant_route
    · exact hc.1
    · show routeDashboardMode _ = routeDashboardMode _
      rw [countReviewsAlongRoute_filtered]
      rfl
  · rw [if_neg hc]
    have hact : s.routeActive = false := by
      cases hb : s.routeActive
      · rfl
      · exfalso
        apply hc
        refine ⟨hb, ?_⟩
        intro h0
        exact h2 hb (List.length_eq_zero.mp h0)
    exact ⟨fun h => h1 h, fun h => h2 h,
      modeInvariant_overall _ rfl hact⟩

/-- One event preserves the reachability invariant, provided route searches
deliver non-empty polylines and review loads succeed. -/
lemma reachInv_step (now : ℤ) (s : AppState) (e : Event)
    (hr : eventRouteNondegenerate e) (hl : eventLoadSucceeds e)
    (hs : reachInv s) : reachInv (step now s e).1 := by
  have hs1 := hs.1
  have hs2 := hs.2.1
  cases e with
  | reviewsLoaded res =>
      cases res with
      | response st body =>
          have hok : okStatus st = true := hl
          simp only [step, hok, if_true]
          exact reachInv_refreshDashboards now _ hs1 hs2
      | networkFailure => exact absurd hl (by simp [eventLoadSucceeds])
  | reviewCreated res =>
      cases res with
      | response st saved =>
          by_cases hok : okStatus st = true
          · simp only [step, hok, if_true]
            exact reachInv_refreshDashboards now _ hs1 hs2
          · simp only [step, hok, Bool.false_eq_true, if_false]
            exact ⟨hs1, hs2, hs.2.2⟩
      | networkFailure => exact ⟨hs1, hs2, hs.2.2⟩
  | reviewDeleted id res =>
      cases res with
      | response st body =>
          by_cases hok : st = 204
          · simp only [step, hok, if_pos rfl]
            exact reachInv_refreshDashboards now _ hs1 hs2
          · simp only [step, if_neg hok]
            exact ⟨hs1, hs2, hs.2.2⟩
      | networkFailure => exact ⟨hs1, hs2, hs.2.2⟩
  | routeFound path =>
      have hp : path ≠ [] := hr
      simp only [step]
      refine ⟨fun h => by simp at h, fun _ => hp, ?_⟩
      apply modeInvariant_route
      · rfl
      · show routeDashboardMode _ = routeDashboardMode _
        rw [countReviewsAlongRoute_filtered]
        rfl
  | routeCleared =>
      simp only [step]
      exact ⟨fun _ => rfl, fun h => by simp at h,
        modeInvariant_overall _ rfl rfl⟩

/-- Folding well-behaved events preserves the reachability invariant. -/
lemma reachInv_foldl (now : ℤ) :
    ∀ (es : List Event) (s : AppState),
      (∀ e ∈ es, eventRouteNondegenerate e ∧ eventLoadSucceeds e) →
      reachInv s → reachInv (es.foldl (fun s e => (step now s e).1) s)
  | [], _, _, hs => hs
  | e :: tl, s, h, hs =>
      reachInv_foldl now tl _
        (fun x hx => h x (List.mem_cons_of_mem _ hx))
        (reachInv_step now s e (h e (List.mem_cons_self _ _)).1
          (h e (List.mem_cons_self _ _)).2 hs)

/-- Claim C2 as amended: after any sequence of events in which every route
search success delivers a non-empty polyline and every review load succeeds,
exactly one mode is active, RouteOnly exactly when a route is set with a
non-empty on-route subset, Empty exactly when a route is set with an empty
on-route subset, and Overall exactly when no route is set. -/
theorem c2_mode_invariant (now : ℤ) (es : List Event)
    (h : ∀ e ∈ es, eventRouteNondegenerate e ∧ eventLoadSucceeds e) :
    modeInvariant (runEvents now es) := by
  unfold runEvents
  exact (reachInv_foldl now es initState h reachInv_initState).2.2

/-- Witness for claim C2 as amended: a route search success delivering a
one-point polyline, from the fresh state. -/
theorem c2_mode_invariant_witness :
    (∀ e ∈ [Event.routeFound [(⟨0, 0⟩ : Pt)]],
      eventRouteNondegenerate e ∧ eventLoadSucceeds e) ∧
      modeInvariant (runEvents 0 [Event.routeFound [(⟨0, 0⟩ : Pt)]]) :=
  ⟨by simp [eventRouteNondegenerate, eventLoadSucceeds],
   c2_mode_invariant 0 [Event.routeFound [(⟨0, 0⟩ : Pt)]]
     (by simp [eventRouteNondegenerate, eventLoadSucceeds])⟩

/-- Counterexample to claim C2 as stated: after a route search success that
delivers an empty polyline followed by a successful review creation, the
route flag is still on but the overall dashboard is active; likewise after a
route search success followed by a failed review load. In both final states
the mode invariant is violated. -/
theorem c2_counterexample :
    ((runEvents 0 [Event.routeFound [],
        Event.reviewCreated (.response 201 ⟨"1", 17.4, 78.5, 4, 3, "ok", "a", 0⟩)]).routeActive
          = true ∧
      (runEvents 0 [Event.routeFound [],
        Event.reviewCreated (.response 201 ⟨"1", 17.4, 78.5, 4, 3, "ok", "a", 0⟩)]).mode
          = Mode.Overall ∧
      ¬ modeInvariant (runEvents 0 [Event.routeFound [],
        Event.reviewCreated (.response 201 ⟨"1", 17.4, 78.5, 4, 3, "ok", "a", 0⟩)])) ∧
    ((runEvents 0 [Event.routeFound [(⟨0, 0⟩ : Pt), ⟨0, 0.01⟩],
        Event.reviewsLoaded .networkFailure]).routeActive = true ∧
      (runEvents 0 [Event.routeFound [(⟨0, 0⟩ : Pt), ⟨0, 0.01⟩],
        Event.reviewsLoaded .networkFailure]).mode = Mode.Overall ∧
      ¬ modeInvariant (runEvents 0 [Event.routeFound [(⟨0, 0⟩ : Pt), ⟨0, 0.01⟩],
        Event.reviewsLoaded .networkFailure])) := by
  have ha1 : (runEvents 0 [Event.routeFound [],
      Event.reviewCreated (.response 201 ⟨"1", 17.4, 78.5, 4, 3, "ok", "a", 0⟩)]).routeActive
        = true := by
    simp [runEvents, step, refreshDashboards, countReviewsAlongRoute,
      routeDashboardMode, okStatus, initState]
  have hm1 : (runEvents 0 [Event.routeFound [],
      Event.reviewCreated (.response 201 ⟨"1", 17.4, 78.5, 4, 3, "ok", "a", 0⟩)]).mode
        = Mode.Overall := by
    simp [runEvents, step, refreshDashboards, countReviewsAlongRoute,
      routeDashboardMode, okStatus, initState]
  have ha2 : (runEvents 0 [Event.routeFound [(⟨0, 0⟩ : Pt), ⟨0, 0.01⟩],
      Event.reviewsLoaded .networkFailure]).routeActive = true := by
    simp [runEvents, step, refreshDashboards, countReviewsAlongRoute,
      routeDashboardMode, okStatus, initState, filterOnRoute]
  have hm2 : (runEvents 0 [Event.routeFound [(⟨0, 0⟩ : Pt), ⟨0, 0.01⟩],
      Event.reviewsLoaded .networkFailure]).mode = Mode.Overall := by
    simp [runEvents, step, refreshDashboards, countReviewsAlongRoute,
      routeDashboardMode, okStatus, initState, filterOnRoute]
  exact ⟨⟨ha1, hm1, fun hInv => (hInv.2.2.2.mp hm1) ha1⟩,
    ⟨ha2, hm2, fun hInv => (hInv.2.2.2.mp hm2) ha2⟩⟩

/-- The radian conversion fixes zero. -/
lemma toRad_zero : toRad 0 = 0 := by
  simp [toRad]

/-- Latitude scale at the equator, evaluated. -/
lemma mPerDegLat_zero : mPerDegLat 0 = 110574.275 := by
  norm_num [mPerDegLat, Real.cos_zero]

/-- Longitude scale at the equator, evaluated. -/
lemma mPerDegLng_zero : mPerDegLng 0 = 111319.34 := by
  norm_num [mPerDegLng, Real.cos_zero]

/-- Planar segment distance for a horizontal segment when the projection of
the point falls between the endpoints: the vertical offset. -/
lemma segDist2D_horizontal (px py vx : ℝ) (hvx : 0 < vx) (h0 : 0 ≤ px)
    (h1 : px ≤ vx) (hpy : 0 ≤ py) : segDist2D px py vx 0 = py := by
  unfold segDist2D
  dsimp only
  rw [if_neg (by intro h; nlinarith)]
  have ht : (px * vx + py * 0) / (vx * vx + 0 * 0) = px / vx := by
    rw [div_eq_div_iff (by nlinarith) hvx.ne']
    ring
  rw [ht]
  have hcl : max 0 (min 1 (px / vx)) = px / vx := by
    rw [min_eq_right ((div_le_one hvx).mpr h1), max_eq_right (div_nonneg h0 hvx.le)]
  rw [hcl]
  have hdx : px - vx * (px / vx) = 0 := by
    field_simp
  rw [hdx]
  have hdy : py - 0 * (px / vx) = py := by ring
  rw [hdy]
  rw [show (0 : ℝ) * 0 + py * py = py * py by ring]
  exact Real.sqrt_mul_self hpy

/-- A two-point polyline yields exactly the distance to its one segment. -/
lemma minDist_single_segment (p v w : Pt) (b : ℝ) :
    minDistanceToPolylineMeters p [v, w] b =
      some (distPointToSegmentMeters p v w) := by
  simp only [minDistanceToPolylineMeters, minDistLoop, ite_self]

/-- Distance from the near review position to the scenario segment. -/
lemma dist_scenario_on :
    distPointToSegmentMeters ⟨0.0005, 0.005⟩ ⟨0, 0⟩ ⟨0, 0.01⟩ =
      0.0005 * 110574.275 := by
  unfold distPointToSegmentMeters
  dsimp only
  have hl : toRad ((0 + 0) / 2) = 0 := by norm_num [toRad]
  rw [hl, mPerDegLat_zero, mPerDegLng_zero]
  rw [show ((0 : ℝ) - 0) * 110574.275 = 0 by norm_num]
  rw [show ((0.005 : ℝ) - 0) * 111319.34 = 0.005 * 111319.34 by norm_num]
  rw [show ((0.0005 : ℝ) - 0) * 110574.275 = 0.0005 * 110574.275 by norm_num]
  rw [show ((0.01 : ℝ) - 0) * 111319.34 = 0.01 * 111319.34 by norm_num]
  exact segDist2D_horizontal _ _ _ (by norm_num) (by norm_num) (by norm_num)
    (by norm_num)

/-- Distance from the far review position to the scenario segment. -/
lemma dist_scenario_off :
    distPointToSegmentMeters ⟨0.02, 0.005⟩ ⟨0, 0⟩ ⟨0, 0.01⟩ =
      0.02 * 110574.275 := by
  unfold distPointToSegmentMeters
  dsimp only
  have hl : toRad ((0 + 0) / 2) = 0 := by norm_num [toRad]
  rw [hl, mPerDegLat_zero, mPerDegLng_zero]
  rw [show ((0 : ℝ) - 0) * 110574.275 = 0 by norm_num]
  rw [show ((0.005 : ℝ) - 0) * 111319.34 = 0.005 * 111319.34 by norm_num]
  rw [show ((0.02 : ℝ) - 0) * 110574.275 = 0.02 * 110574.275 by norm_num]
  rw [show ((0.01 : ℝ) - 0) * 111319.34 = 0.01 * 111319.34 by norm_num]
  exact segDist2D_horizontal _ _ _ (by norm_num) (by norm_num) (by norm_num)
    (by norm_num)

/-- Claim C6: on the route from (0, 0) to (0, 0.01) with the 1000 m buffer,
the review at (0.0005, 0.005) is classified on-route (distance about 55 m)
and the review at (0.02, 0.005) is classified off-route (distance about
2.2 km). -/
theorem c6_concrete_scenarios :
    distWithinBuffer (minDistanceToPolylineMeters ⟨0.0005, 0.005⟩
        [⟨0, 0⟩, ⟨0, 0.01⟩] routeBufferMeters) routeBufferMeters ∧
      ¬ distWithinBuffer (minDistanceToPolylineMeters ⟨0.02, 0.005⟩
        [⟨0, 0⟩, ⟨0, 0.01⟩] routeBufferMeters) routeBufferMeters := by
  rw [minDist_single_segment, minDist_single_segment, dist_scenario_on,
    dist_scenario_off, distWithinBuffer_some, distWithinBuffer_some]
  constructor <;> norm_num [routeBufferMeters]
